import Mathlib

/-!
Shallow embedding of the dependabot-jira-sync-action repository
(src/github.js, src/jira.js, src/main.js) for checking its natural-language
specification.  JavaScript values are modelled as follows: optional fields
become `Option`, JavaScript string falsiness (`undefined`/`""`) is modelled
by `jsOrStr`/`jsOrNullStr`, numeric falsiness (`undefined`/`0`) by
`jsOrNat`/`jsOrNullQ`, exceptions become `Except String`, and every network
request issued by an operation is recorded in an explicit `JiraWrite` trace,
with the responses of the two remote systems supplied as environment
functions.  Calendar arithmetic (`Date.setDate` + `toISOString` on UTC
timestamps) is modelled with a civil-calendar serial-day encoding.
-/

/-- JavaScript `x || d` for an optional string `x` (both `undefined` and the
empty string fall through to the default). -/
def jsOrStr (v : Option String) (d : String) : String :=
  match v with
  | none => d
  | some s => if s = "" then d else s

/-- JavaScript `x || null` for an optional string: `undefined` and `""` both
give `null`. -/
def jsOrNullStr (v : Option String) : Option String :=
  match v with
  | none => none
  | some s => if s = "" then none else some s

/-- JavaScript `x || d` for an optional number (both `undefined` and `0` fall
through to the default). -/
def jsOrNat (v : Option Nat) (d : Nat) : Nat :=
  match v with
  | none => d
  | some n => if n = 0 then d else n

/-- JavaScript `x || null` for an optional numeric score: `undefined` and `0`
both give `null`. -/
def jsOrNullQ (v : Option ℚ) : Option ℚ :=
  match v with
  | none => none
  | some q => if q = 0 then none else some q

/-! ### Kernel-evaluable string primitives

The core library implements `String.toLower`, `trim`, `splitOn`, `toNat?`
by byte-position recursion, which the kernel cannot reduce on concrete
inputs; the following character-list equivalents are used instead. -/

/-- `s.toLowerCase()`. -/
def strToLower (s : String) : String := String.mk (s.toList.map Char.toLower)

/-- `s.toUpperCase()`. -/
def strToUpper (s : String) : String := String.mk (s.toList.map Char.toUpper)

/-- `s.trim()`. -/
def strTrim (s : String) : String :=
  String.mk (((s.toList.dropWhile Char.isWhitespace).reverse.dropWhile Char.isWhitespace).reverse)

/-- Helper of `strSplitComma` accumulating the current field in reverse. -/
def splitCommaAux : List Char → List Char → List String
  | [], acc => [String.mk acc.reverse]
  | c :: cs, acc =>
    if c = ',' then String.mk acc.reverse :: splitCommaAux cs []
    else splitCommaAux cs (c :: acc)

/-- `s.split(',')`. -/
def strSplitComma (s : String) : List String := splitCommaAux s.toList []

/-- Numeric value of a decimal digit character. -/
def digitVal (c : Char) : Nat := c.toNat - '0'.toNat

/-- Parse a non-empty all-digit character list as a natural number. -/
def listToNat? (l : List Char) : Option Nat :=
  if l = [] then none
  else if l.all Char.isDigit then
    some (l.foldl (fun acc c => acc * 10 + digitVal c) 0)
  else none

/-- Decimal rendering of an integer. -/
def intToString (i : Int) : String :=
  match i with
  | Int.ofNat n => toString n
  | Int.negSucc n => "-" ++ toString (n + 1)

/-- Decimal rendering of a rational (numerator/denominator). -/
def ratToString (q : ℚ) : String :=
  if q.den = 1 then intToString q.num
  else intToString q.num ++ "/" ++ toString q.den

/-! ## Civil-calendar arithmetic

`calculateDueDate` in src/jira.js does `date.setDate(date.getDate() + days)`
followed by `toISOString().split('T')[0]` on a UTC timestamp, i.e. it adds
whole days to the civil date.  We encode a civil date `(y, m, d)` as a serial
day count (days since 0000-03-01) using the standard Gregorian-calendar
conversion. -/

/-- Serial day number of the civil date `(y, m, d)` (valid for `y ≥ 1`). -/
def toRd (y m d : Nat) : Nat :=
  let yAdj := if m ≤ 2 then y - 1 else y
  let era := yAdj / 400
  let yoe := yAdj - era * 400
  let mp := (m + 9) % 12
  let doy := (153 * mp + 2) / 5 + d - 1
  let doe := yoe * 365 + yoe / 4 - yoe / 100 + doy
  era * 146097 + doe

/-- Civil date `(y, m, d)` of a serial day number. -/
def fromRd (n : Nat) : Nat × Nat × Nat :=
  let era := n / 146097
  let doe := n % 146097
  let yoe := (doe - doe / 1460 + doe / 36524 - doe / 146096) / 365
  let y := yoe + era * 400
  let doy := doe - (365 * yoe + yoe / 4 - yoe / 100)
  let mp := (5 * doy + 2) / 153
  let d := doy - (153 * mp + 2) / 5 + 1
  let m := if mp < 10 then mp + 3 else mp - 9
  (if m ≤ 2 then y + 1 else y, m, d)

/-- Zero-pad a number to two digits (as in an ISO date). -/
def pad2 (n : Nat) : String :=
  if n < 10 then "0" ++ toString n else toString n

/-- Zero-pad a year to four digits (as in an ISO date). -/
def pad4 (n : Nat) : String :=
  if n < 10 then "000" ++ toString n
  else if n < 100 then "00" ++ toString n
  else if n < 1000 then "0" ++ toString n
  else toString n

/-- The `YYYY-MM-DD` rendering produced by `toISOString().split('T')[0]`. -/
def formatDate : Nat × Nat × Nat → String
  | (y, m, d) => pad4 y ++ "-" ++ pad2 m ++ "-" ++ pad2 d

/-- Extract the civil date from an ISO-8601 UTC timestamp string such as
`"2023-01-10T08:00:00Z"` (models `new Date(s)` restricted to the date part,
which is all the due-date computation observes; an unparseable string models
an Invalid Date). -/
def parseIsoTimestamp (s : String) : Option (Nat × Nat × Nat) :=
  let cs := s.toList
  match listToNat? (cs.take 4), listToNat? ((cs.drop 5).take 2), listToNat? ((cs.drop 8).take 2) with
  | some y, some m, some d =>
      if (cs.drop 4).take 1 = ['-'] ∧ (cs.drop 7).take 1 = ['-'] then some (y, m, d) else none
  | _, _, _ => none

/-! ## Due-date calculation (src/jira.js `calculateDueDate`) -/

/-- The four per-severity due-day configuration values; `none` models an
absent (`undefined`/`NaN`) configuration entry. -/
structure DueDaysConfig where
  critical : Option Nat
  high : Option Nat
  medium : Option Nat
  low : Option Nat

/-- The `daysMap[severity] || daysMap.medium` lookup of `calculateDueDate`,
including the hardcoded `|| 1 / 7 / 30 / 90` defaults. -/
def daysForSeverity (severity : String) (cfg : DueDaysConfig) : Nat :=
  let criticalDays := jsOrNat cfg.critical 1
  let highDays := jsOrNat cfg.high 7
  let mediumDays := jsOrNat cfg.medium 30
  let lowDays := jsOrNat cfg.low 90
  if severity = "critical" then criticalDays
  else if severity = "high" then highDays
  else if severity = "medium" then mediumDays
  else if severity = "low" then lowDays
  else mediumDays

/-- src/jira.js `calculateDueDate`: add the per-severity day offset to the
alert creation date (or to the current date `now` when `createdAt` is falsy)
and render `YYYY-MM-DD`; `none` models the exception thrown by
`toISOString()` on an Invalid Date. -/
def calculateDueDate (severity : String) (cfg : DueDaysConfig)
    (createdAt : Option String) (now : Nat × Nat × Nat) : Option String :=
  let days := daysForSeverity severity cfg
  let base :=
    match createdAt with
    | some s => if s = "" then some now else parseIsoTimestamp s
    | none => some now
  match base with
  | none => none
  | some (y, m, d) => some (formatDate (fromRd (toRd y m d + days)))

/-! ## Raw Dependabot alerts and `parseAlert` (src/github.js) -/

structure RawPackage where
  name : Option String
  ecosystem : Option String

structure RawCvss where
  score : Option ℚ

structure RawAdvisory where
  summary : Option String
  description : Option String
  severity : Option String
  cvss : Option RawCvss
  cve_id : Option String
  ghsa_id : Option String

structure RawPatch where
  identifier : Option String

structure RawVulnerability where
  vulnerable_version_range : Option String
  first_patched_version : Option RawPatch

structure RawDependency where
  package : Option RawPackage

structure RawAlert where
  number : Nat
  security_advisory : Option RawAdvisory
  security_vulnerability : Option RawVulnerability
  dependency : Option RawDependency
  html_url : String
  created_at : Option String
  updated_at : String
  state : String
  dismissed_at : Option String
  dismissed_reason : Option String
  dismissed_comment : Option String

/-- The `{}` default of `alert.security_advisory || {}`. -/
def emptyAdvisory : RawAdvisory := ⟨none, none, none, none, none, none⟩

/-- The `{}` default of `alert.security_vulnerability || {}`. -/
def emptyVulnerability : RawVulnerability := ⟨none, none⟩

/-- The `{}` default of `alert.dependency || {}`. -/
def emptyDependency : RawDependency := ⟨none⟩

/-- The canonical alert produced by `parseAlert`. -/
structure ParsedAlert where
  id : Nat
  title : String
  description : String
  severity : String
  package : String
  ecosystem : String
  vulnerableVersionRange : String
  firstPatchedVersion : String
  cvss : Option ℚ
  cveId : Option String
  ghsaId : Option String
  url : String
  createdAt : Option String
  updatedAt : String
  state : String
  dismissedAt : Option String
  dismissedReason : Option String
  dismissedComment : Option String

/-- src/github.js `parseAlert`. -/
def parseAlert (alert : RawAlert) : ParsedAlert :=
  let advisory := alert.security_advisory.getD emptyAdvisory
  let vulnerability := alert.security_vulnerability.getD emptyVulnerability
  let dependency := alert.dependency.getD emptyDependency
  { id := alert.number
    title := jsOrStr advisory.summary
      ("Vulnerability in " ++ jsOrStr (dependency.package.bind RawPackage.name) "unknown")
    description := jsOrStr advisory.description "No description available"
    severity := jsOrStr (advisory.severity.map strToLower) "unknown"
    package := jsOrStr (dependency.package.bind RawPackage.name) "unknown"
    ecosystem := jsOrStr (dependency.package.bind RawPackage.ecosystem) "unknown"
    vulnerableVersionRange := jsOrStr vulnerability.vulnerable_version_range "unknown"
    firstPatchedVersion :=
      jsOrStr (vulnerability.first_patched_version.bind RawPatch.identifier) "Not available"
    cvss := jsOrNullQ (advisory.cvss.bind RawCvss.score)
    cveId := jsOrNullStr advisory.cve_id
    ghsaId := jsOrNullStr advisory.ghsa_id
    url := alert.html_url
    createdAt := alert.created_at
    updatedAt := alert.updated_at
    state := alert.state
    dismissedAt := alert.dismissed_at
    dismissedReason := alert.dismissed_reason
    dismissedComment := alert.dismissed_comment }

/-! ## Severity filtering (src/github.js `getDependabotAlerts`) -/

def severityLevels : List String := ["low", "medium", "high", "critical"]

/-- JavaScript `Array.prototype.indexOf` helper carrying the current index. -/
def jsIndexOfAux (x : String) : List String → Int → Int
  | [], _ => -1
  | h :: t, i => if h = x then i else jsIndexOfAux x t (i + 1)

/-- JavaScript `l.indexOf(x)`: first index of `x` in `l`, or `-1`. -/
def jsIndexOf (l : List String) (x : String) : Int := jsIndexOfAux x l 0

/-- `severityLevels.indexOf(alert.security_advisory?.severity?.toLowerCase())`
(`indexOf(undefined)` is `-1`). -/
def alertSeverityIndex (alert : RawAlert) : Int :=
  match alert.security_advisory.bind RawAdvisory.severity with
  | none => -1
  | some s => jsIndexOf severityLevels (strToLower s)

/-- The severity-threshold filtering step of `getDependabotAlerts`: an
unrecognized threshold throws `Invalid severity threshold`, otherwise keep
the alerts whose severity index reaches the threshold index. -/
def filterAlertsBySeverity (alerts : List RawAlert) (severityThreshold : String) :
    Except String (List RawAlert) :=
  let minSeverityIndex := jsIndexOf severityLevels (strToLower severityThreshold)
  if minSeverityIndex = -1 then
    Except.error ("Invalid severity threshold: " ++ severityThreshold)
  else
    Except.ok (alerts.filter (fun a => decide (minSeverityIndex ≤ alertSeverityIndex a)))

/-! ## Jira issues, search, and alert-id extraction (src/jira.js) -/

/-- A Jira issue as seen through the fields this system reads
(`key,summary,description,status`; optional fields model `undefined`). -/
structure JiraIssue where
  key : String
  summary : Option String
  description : Option String
deriving DecidableEq

/-- Outcome of a Jira `/search` request (a thrown axios error becomes
`err`). -/
inductive SearchOutcome where
  | ok (issues : List JiraIssue)
  | err (msg : String)

/-- The JQL string interpolated by `findExistingIssue` in src/jira.js. -/
def buildFindJql (projectKey : String) (alertId : String) : String :=
  "project = " ++ projectKey ++ " AND summary ~ \"Dependabot Alert #" ++ alertId ++ "\""

/-- src/jira.js `findExistingIssue`: interpolate the identifiers into a JQL
query, issue it, return the first result or `null`; a search failure is soft
(warn and return `null`).  The `search` argument is the Jira `/search`
endpoint, keyed by the JQL string sent to it. -/
def findExistingIssue (projectKey : String) (alertId : String)
    (search : String → SearchOutcome) : Option JiraIssue :=
  match search (buildFindJql projectKey alertId) with
  | SearchOutcome.ok issues => issues.head?
  | SearchOutcome.err _ => none

/-- The JQL string interpolated by `findOpenDependabotIssues` in src/jira.js. -/
def buildOpenIssuesJql (projectKey : String) : String :=
  "project = \"" ++ projectKey ++ "\" AND labels = \"dependabot\" AND status != \"Done\""
    ++ " AND status != \"Resolved\" AND status != \"Closed\""

/-- src/jira.js `findOpenDependabotIssues`: list the open tracked issues of
the project; a search failure is soft (warn and return `[]`). -/
def findOpenDependabotIssues (projectKey : String)
    (search : String → SearchOutcome) : List JiraIssue :=
  match search (buildOpenIssuesJql projectKey) with
  | SearchOutcome.ok issues => issues
  | SearchOutcome.err _ => []

/-- `marker.isPrefixOf s` returning the remainder after the marker. -/
def markerRest : List Char → List Char → Option (List Char)
  | [], s => some s
  | _ :: _, [] => none
  | m :: ms, c :: cs => if c = m then markerRest ms cs else none

/-- Scan for the regex `<marker>(\d+)`: the first position where the marker
occurs immediately followed by at least one digit; return the maximal digit
run (the capture group). -/
def scanMarkerDigits (marker : List Char) : List Char → Option String
  | [] =>
    match markerRest marker [] with
    | some rest =>
        let ds := rest.takeWhile Char.isDigit
        if ds = [] then none else some (String.mk ds)
    | none => none
  | c :: cs =>
    match markerRest marker (c :: cs) with
    | some rest =>
        let ds := rest.takeWhile Char.isDigit
        if ds = [] then scanMarkerDigits marker cs else some (String.mk ds)
    | none => scanMarkerDigits marker cs

/-- Scan for the regex `<marker>\s*(\d+)` (whitespace allowed between the
marker and the digits, as in `/Alert ID:\s*(\d+)/`). -/
def scanMarkerWsDigits (marker : List Char) : List Char → Option String
  | [] => none
  | c :: cs =>
    match markerRest marker (c :: cs) with
    | some rest =>
        let ds := (rest.dropWhile Char.isWhitespace).takeWhile Char.isDigit
        if ds = [] then scanMarkerWsDigits marker cs else some (String.mk ds)
    | none => scanMarkerWsDigits marker cs

/-- `summary.match(/Dependabot Alert #(\d+)/)`, returning the capture. -/
def summaryAlertId (s : String) : Option String :=
  scanMarkerDigits ("Dependabot Alert #".toList) s.toList

/-- `description.match(/Alert ID:\s*(\d+)/)`, returning the capture. -/
def descriptionAlertId (s : String) : Option String :=
  scanMarkerWsDigits ("Alert ID:".toList) s.toList

/-- src/jira.js `extractAlertIdFromIssue`: the summary pattern
`Dependabot Alert #<id>` first, then the description pattern
`Alert ID: <id>`, else `null` with a warning. -/
def extractAlertIdFromIssue (issue : JiraIssue) : Option String :=
  match issue.summary.bind summaryAlertId with
  | some alertId => some alertId
  | none =>
    match issue.description.bind descriptionAlertId with
    | some alertId => some alertId
    | none => none

/-! ## Alert-status lookup (src/github.js `getAlertStatus`) -/

/-- Outcome of the GitHub single-alert lookup: either the alert's state, or
a thrown request error carrying its HTTP status code. -/
inductive AlertLookup where
  | found (state : String)
  | failed (status : Nat) (msg : String)

/-- src/github.js `getAlertStatus`: total over lookup outcomes — maps a 404
failure to `"not_found"`, any other failure to `"unknown"`, and passes the
alert's state through otherwise. -/
def getAlertStatus (outcome : AlertLookup) : String :=
  match outcome with
  | AlertLookup.found st =>
      if st = "open" then "open"
      else if st = "dismissed" then "dismissed"
      else if st = "fixed" then "fixed"
      else st
  | AlertLookup.failed status _ =>
      if status = 404 then "not_found" else "unknown"

/-! ## Mutating Jira operations (src/jira.js) with explicit write traces -/

/-- One mutating network request issued against Jira.  (Comment bodies are
not carried: no property examined here depends on their text, and the
update-comment body renders timestamps with the locale-dependent
`toLocaleString`.) -/
inductive JiraWrite where
  | createIssue (summary : String) (duedate : String)
  | addComment (issueKey : String)
  | doTransition (issueKey : String) (transitionId : String)
deriving DecidableEq

structure JiraConfig where
  projectKey : String
  issueType : String
  priority : String
  labels : String
  assignee : Option String
  dueDays : DueDaysConfig

/-- The `fields` payload built by `createJiraIssue`. -/
structure IssueFields where
  projectKey : String
  summary : String
  description : String
  issuetype : String
  priority : String
  duedate : String
  labels : Option (List String)
  assignee : Option String

/-- The issue description template of `createJiraIssue` (the CVSS score is
rendered via `toString`; the exact numeral formatting of JavaScript floats
is not observed by any property below). -/
def buildIssueDescription (alert : ParsedAlert) : String :=
  ("\n*Dependabot Security Alert #" ++ toString alert.id ++ "*\n\n*Package:* "
    ++ alert.package ++ "\n*Ecosystem:* " ++ alert.ecosystem ++ "\n*Severity:* "
    ++ strToUpper alert.severity ++ "\n*Vulnerable Version Range:* "
    ++ alert.vulnerableVersionRange ++ "\n*First Patched Version:* "
    ++ alert.firstPatchedVersion ++ "\n\n*Description:*\n" ++ alert.description ++ "\n\n"
    ++ (match alert.cvss with
        | some q => "*CVSS Score:* " ++ ratToString q
        | none => "") ++ "\n"
    ++ (match alert.cveId with
        | some c => "*CVE ID:* " ++ c
        | none => "") ++ "\n"
    ++ (match alert.ghsaId with
        | some g => "*GHSA ID:* " ++ g
        | none => "") ++ "\n\n*GitHub Alert URL:* " ++ alert.url
    ++ "\n\n---\n_This issue was automatically created by the Dependabot Jira Sync action._\n  " |> strTrim)

/-- Result value of `createJiraIssue` (`{ key: 'DRY-RUN-KEY', dryRun: true }`
in dry-run mode, the created key otherwise). -/
structure CreateResult where
  key : String
  dryRun : Bool
deriving DecidableEq

/-- src/jira.js `createJiraIssue`: compute the due date (an Invalid Date
throws here, before the dry-run check), build the payload, and either return
the dry-run sentinel before any request or POST the issue.  `post` is the
Jira `/issue` endpoint. -/
def createJiraIssue (cfg : JiraConfig) (alert : ParsedAlert) (dryRun : Bool)
    (now : Nat × Nat × Nat) (post : IssueFields → Except String String) :
    Except String CreateResult × List JiraWrite :=
  match calculateDueDate alert.severity cfg.dueDays alert.createdAt now with
  | none => (Except.error "Invalid time value", [])
  | some dueDate =>
    let summary := "Dependabot Alert #" ++ toString alert.id ++ ": " ++ alert.title
    let fields : IssueFields :=
      { projectKey := cfg.projectKey
        summary := summary
        description := buildIssueDescription alert
        issuetype := cfg.issueType
        priority := cfg.priority
        duedate := dueDate
        labels := if cfg.labels ≠ "" then some ((strSplitComma cfg.labels).map strTrim) else none
        assignee := cfg.assignee }
    if dryRun then (Except.ok ⟨"DRY-RUN-KEY", true⟩, [])
    else
      match post fields with
      | Except.ok key => (Except.ok ⟨key, false⟩, [JiraWrite.createIssue summary dueDate])
      | Except.error e => (Except.error e, [JiraWrite.createIssue summary dueDate])

/-- Result value of `updateJiraIssue` (`{ updated: true, dryRun: true }` in
dry-run mode, `{ updated: true }` otherwise). -/
structure UpdateResult where
  updated : Bool
  dryRun : Bool
deriving DecidableEq

/-- src/jira.js `updateJiraIssue`: return the dry-run sentinel before any
request, or POST a status comment to the existing issue.  `post` is the Jira
comment endpoint keyed by issue key. -/
def updateJiraIssue (issueKey : String) (_alert : ParsedAlert) (dryRun : Bool)
    (post : String → Except String Unit) : Except String UpdateResult × List JiraWrite :=
  if dryRun then (Except.ok ⟨true, true⟩, [])
  else
    match post issueKey with
    | Except.ok _ => (Except.ok ⟨true, false⟩, [JiraWrite.addComment issueKey])
    | Except.error e => (Except.error e, [JiraWrite.addComment issueKey])

structure JiraTransition where
  id : String
  name : String
deriving DecidableEq

/-- Result value of `closeJiraIssue` (`{ closed: false, dryRun: true }` in
dry-run mode, `{ closed: true }` otherwise). -/
structure CloseResult where
  closed : Bool
  dryRun : Bool
deriving DecidableEq

/-- src/jira.js `closeJiraIssue`: in dry-run mode return the sentinel with no
request at all; otherwise fetch the available transitions, select the one
matching the requested name case-insensitively (failing with an error naming
the request and listing the available names), add the close comment first
when it is non-empty, then apply the transition. -/
def closeJiraIssue (issueKey : String) (transitionName : String) (comment : String)
    (dryRun : Bool)
    (getTransitions : String → Except String (List JiraTransition))
    (postComment : String → Except String Unit)
    (postTransition : String → String → Except String Unit) :
    Except String CloseResult × List JiraWrite :=
  if dryRun then (Except.ok ⟨false, true⟩, [])
  else
    match getTransitions issueKey with
    | Except.error e => (Except.error e, [])
    | Except.ok available =>
      match available.find? (fun t => strToLower t.name == strToLower transitionName) with
      | none =>
        (Except.error ("Transition \"" ++ transitionName
            ++ "\" not available. Available transitions: "
            ++ String.intercalate ", " (available.map JiraTransition.name)), [])
      | some target =>
        if comment = "" then
          match postTransition issueKey target.id with
          | Except.ok _ =>
              (Except.ok ⟨true, false⟩, [JiraWrite.doTransition issueKey target.id])
          | Except.error e => (Except.error e, [JiraWrite.doTransition issueKey target.id])
        else
          match postComment issueKey with
          | Except.error e => (Except.error e, [JiraWrite.addComment issueKey])
          | Except.ok _ =>
            match postTransition issueKey target.id with
            | Except.ok _ =>
                (Except.ok ⟨true, false⟩,
                  [JiraWrite.addComment issueKey, JiraWrite.doTransition issueKey target.id])
            | Except.error e =>
                (Except.error e,
                  [JiraWrite.addComment issueKey, JiraWrite.doTransition issueKey target.id])

/-! ## Run orchestration (src/main.js `run`) -/

structure BehaviorConfig where
  updateExisting : Bool
  autoCloseResolved : Bool
  closeTransition : String
  closeComment : String
  dryRun : Bool

structure RunConfig where
  jira : JiraConfig
  severityThreshold : String
  behavior : BehaviorConfig
  now : Nat × Nat × Nat

/-- The remote systems' responses, as functions of the requests the run
issues: the alert-list fetch, the Jira `/search` endpoint (keyed by JQL),
the issue / comment / transition POST endpoints, the per-alert GitHub status
lookup, and the per-issue transition list. -/
structure RunEnv where
  rawAlerts : Except String (List RawAlert)
  search : String → SearchOutcome
  createPost : IssueFields → Except String String
  updatePost : String → Except String Unit
  alertLookup : String → AlertLookup
  getTransitions : String → Except String (List JiraTransition)
  closeCommentPost : String → Except String Unit
  transitionPost : String → String → Except String Unit

/-- Per-alert outcome inside the create/update loop of src/main.js (`failed`
is the caught-and-logged branch of the per-alert `try/catch`). -/
inductive AlertOutcome where
  | created
  | updated
  | skipped
  | failed (msg : String)
deriving DecidableEq

/-- One iteration of the create/update loop of src/main.js: parse the alert,
search for an existing issue, then update (when enabled), skip, or create;
any thrown error is caught and recorded as `failed`. -/
def processAlert (cfg : RunConfig) (env : RunEnv) (rawAlert : RawAlert) :
    AlertOutcome × List JiraWrite :=
  let parsedAlert := parseAlert rawAlert
  match findExistingIssue cfg.jira.projectKey (toString parsedAlert.id) env.search with
  | some existingIssue =>
    if cfg.behavior.updateExisting then
      match updateJiraIssue existingIssue.key parsedAlert cfg.behavior.dryRun env.updatePost with
      | (Except.ok _, w) => (AlertOutcome.updated, w)
      | (Except.error e, w) => (AlertOutcome.failed e, w)
    else (AlertOutcome.skipped, [])
  | none =>
    match createJiraIssue cfg.jira parsedAlert cfg.behavior.dryRun cfg.now env.createPost with
    | (Except.ok _, w) => (AlertOutcome.created, w)
    | (Except.error e, w) => (AlertOutcome.failed e, w)

/-- Accumulated result of the create/update loop.  `processed` counts every
alert entering the loop body (`processedAlerts.push` precedes anything that
can throw). -/
structure LoopTotals where
  created : Nat
  updated : Nat
  processed : Nat
  writes : List JiraWrite
deriving DecidableEq

/-- The create/update loop of src/main.js: each alert is processed through
`processAlert`, whose caught failures leave the loop running. -/
def createUpdateLoop (cfg : RunConfig) (env : RunEnv) : List RawAlert → LoopTotals
  | [] => ⟨0, 0, 0, []⟩
  | a :: rest =>
    let step := processAlert cfg env a
    let t := createUpdateLoop cfg env rest
    ⟨(if step.1 = AlertOutcome.created then 1 else 0) + t.created,
     (if step.1 = AlertOutcome.updated then 1 else 0) + t.updated,
     1 + t.processed,
     step.2 ++ t.writes⟩

/-- Per-issue outcome inside the auto-close loop of src/main.js. -/
inductive CloseOutcome where
  | closedIssue
  | keptOpen
  | keptOpenUnknown
  | skippedNoId
  | failed (msg : String)
deriving DecidableEq

/-- The reason line appended to the close comment in src/main.js. -/
def closeReason (alertStatus : String) : String :=
  if alertStatus = "not_found" then "Alert was deleted from GitHub"
  else "Alert was " ++ alertStatus ++ " in GitHub"

/-- One iteration of the auto-close loop of src/main.js: extract the alert
id (skip when absent), look up the alert's current status, close on
`fixed`/`dismissed`/`not_found`, keep open on `open`, keep open with a
warning on anything else; a thrown error is caught and recorded as
`failed`. -/
def autoCloseStep (cfg : RunConfig) (env : RunEnv) (issue : JiraIssue) :
    CloseOutcome × List JiraWrite :=
  match extractAlertIdFromIssue issue with
  | none => (CloseOutcome.skippedNoId, [])
  | some alertId =>
    let alertStatus := getAlertStatus (env.alertLookup alertId)
    if alertStatus = "fixed" ∨ alertStatus = "dismissed" ∨ alertStatus = "not_found" then
      let fullComment :=
        cfg.behavior.closeComment ++ "\n\nReason: " ++ closeReason alertStatus
      match closeJiraIssue issue.key cfg.behavior.closeTransition fullComment
          cfg.behavior.dryRun env.getTransitions env.closeCommentPost env.transitionPost with
      | (Except.ok _, w) => (CloseOutcome.closedIssue, w)
      | (Except.error e, w) => (CloseOutcome.failed e, w)
    else if alertStatus = "open" then (CloseOutcome.keptOpen, [])
    else (CloseOutcome.keptOpenUnknown, [])

/-- The auto-close loop of src/main.js: each open tracked issue goes through
`autoCloseStep`, whose caught failures leave the loop running;
`issuesClosed` counts the steps whose close call returned. -/
def autoCloseLoop (cfg : RunConfig) (env : RunEnv) : List JiraIssue → Nat × List JiraWrite
  | [] => (0, [])
  | i :: rest =>
    let step := autoCloseStep cfg env i
    let t := autoCloseLoop cfg env rest
    ((if step.1 = CloseOutcome.closedIssue then 1 else 0) + t.1, step.2 ++ t.2)

/-- The dry-run summary line of src/main.js. -/
def dryRunSummary (c u x : Nat) : String :=
  "DRY RUN: Would create " ++ toString c ++ " issues, update " ++ toString u
    ++ " issues, and close " ++ toString x ++ " issues"

/-- The real-run summary line of src/main.js. -/
def realRunSummary (c u x : Nat) : String :=
  "Created " ++ toString c ++ " new issues, updated " ++ toString u
    ++ " existing issues, and closed " ++ toString x ++ " resolved issues"

/-- Result of a whole run: either the `core.setOutput` pairs in the order
they are set, or the `core.setFailed` message of the outer catch. -/
inductive RunResult where
  | success (outputs : List (String × String))
  | failure (msg : String)

/-- src/main.js `run`: fetch and filter the alerts (a failure here reaches
the outer catch), short-circuit on an empty list, otherwise run the
create/update loop, then (when enabled) the auto-close loop over the open
tracked issues, and set the outputs. -/
def runSync (cfg : RunConfig) (env : RunEnv) : RunResult × List JiraWrite :=
  match env.rawAlerts with
  | Except.error e => (RunResult.failure e, [])
  | Except.ok raw =>
    match filterAlertsBySeverity raw cfg.severityThreshold with
    | Except.error e => (RunResult.failure e, [])
    | Except.ok alerts =>
      if alerts.length = 0 then
        (RunResult.success
          [("issues-created", "0"), ("issues-updated", "0"),
           ("alerts-processed", "0"), ("summary", "No alerts to process")], [])
      else
        let totals := createUpdateLoop cfg env alerts
        let closeStep :=
          if cfg.behavior.autoCloseResolved then
            autoCloseLoop cfg env (findOpenDependabotIssues cfg.jira.projectKey env.search)
          else (0, [])
        let summary :=
          if cfg.behavior.dryRun then dryRunSummary totals.created totals.updated closeStep.1
          else realRunSummary totals.created totals.updated closeStep.1
        (RunResult.success
          [("issues-created", toString totals.created),
           ("issues-updated", toString totals.updated),
           ("issues-closed", toString closeStep.1),
           ("alerts-processed", toString totals.processed),
           ("summary", summary)], totals.writes ++ closeStep.2)

/-- The value a downstream workflow step reads for output key `k`. -/
def lookupOutput (r : RunResult) (k : String) : Option String :=
  match r with
  | RunResult.success outputs => (outputs.find? (fun p => p.1 == k)).map Prod.snd
  | RunResult.failure _ => none

/-! ## Helper lemmas -/

/-- Pointwise combination of two create/update-loop results. -/
def combineTotals (a b : LoopTotals) : LoopTotals :=
  ⟨a.created + b.created, a.updated + b.updated, a.processed + b.processed, a.writes ++ b.writes⟩

theorem createUpdateLoop_append (cfg : RunConfig) (env : RunEnv) (xs ys : List RawAlert) :
    createUpdateLoop cfg env (xs ++ ys) =
      combineTotals (createUpdateLoop cfg env xs) (createUpdateLoop cfg env ys) := by
  induction xs with
  | nil => simp [createUpdateLoop, combineTotals]
  | cons a rest ih =>
      simp only [List.cons_append, createUpdateLoop, List.append_eq, ih, combineTotals, LoopTotals.mk.injEq]
      refine ⟨by omega, by omega, by omega, by simp⟩

theorem autoCloseLoop_append (cfg : RunConfig) (env : RunEnv) (xs ys : List JiraIssue) :
    autoCloseLoop cfg env (xs ++ ys) =
      ((autoCloseLoop cfg env xs).1 + (autoCloseLoop cfg env ys).1,
       (autoCloseLoop cfg env xs).2 ++ (autoCloseLoop cfg env ys).2) := by
  induction xs with
  | nil => simp [autoCloseLoop]
  | cons i rest ih =>
      simp only [List.cons_append, autoCloseLoop, List.append_eq, ih, Prod.mk.injEq]
      exact ⟨by omega, by simp⟩

/-! ## Concrete run fixtures -/

def fixtureJira : JiraConfig :=
  { projectKey := "SEC", issueType := "Bug", priority := "Medium",
    labels := "dependabot,security", assignee := none,
    dueDays := ⟨some 1, some 7, some 30, some 90⟩ }

def fixtureCfg : RunConfig :=
  { jira := fixtureJira
    severityThreshold := "medium"
    behavior :=
      { updateExisting := true, autoCloseResolved := true, closeTransition := "Done",
        closeComment := "Resolved upstream.", dryRun := false }
    now := (2023, 1, 15) }

/-- A tracked issue whose workflow is missing the configured close
transition. -/
def issueNoDone : JiraIssue := ⟨"SEC-1", some "Dependabot Alert #7: vuln one", none⟩

/-- A tracked issue whose workflow has the configured close transition. -/
def issueWithDone : JiraIssue := ⟨"SEC-2", some "Dependabot Alert #8: vuln two", none⟩

/-- An environment in which both tracked alerts are fixed, `SEC-1` offers
only an `In Progress` transition, and `SEC-2` offers `Done`. -/
def fixtureEnv : RunEnv :=
  { rawAlerts := Except.ok []
    search := fun _ => SearchOutcome.ok []
    createPost := fun _ => Except.ok "SEC-100"
    updatePost := fun _ => Except.ok ()
    alertLookup := fun _ => AlertLookup.found "fixed"
    getTransitions := fun k =>
      if k = "SEC-1" then Except.ok [⟨"21", "In Progress"⟩] else Except.ok [⟨"31", "Done"⟩]
    closeCommentPost := fun _ => Except.ok ()
    transitionPost := fun _ _ => Except.ok () }

/-! ## Claims -/

/-- C1: per-item failure isolation.  The create/update loop and the
auto-close loop both decompose over list concatenation, so an error recorded
for one item never changes how the remaining items are processed; requesting
closure with a transition name that is absent (case-insensitively) from the
ticket's available transitions produces exactly the error naming the request
and listing all available transition names; and in a concrete two-ticket run
where the first ticket's close fails for that reason, the second ticket is
still closed. -/
theorem C1_per_item_failure_isolation :
    (∀ cfg env xs ys, createUpdateLoop cfg env (xs ++ ys) =
        combineTotals (createUpdateLoop cfg env xs) (createUpdateLoop cfg env ys))
  ∧ (∀ cfg env xs ys, autoCloseLoop cfg env (xs ++ ys) =
        ((autoCloseLoop cfg env xs).1 + (autoCloseLoop cfg env ys).1,
         (autoCloseLoop cfg env xs).2 ++ (autoCloseLoop cfg env ys).2))
  ∧ (∀ issueKey transitionName comment available pc pt,
        available.find? (fun t => strToLower t.name == strToLower transitionName) = none →
        closeJiraIssue issueKey transitionName comment false
            (fun _ => Except.ok available) pc pt =
          (Except.error ("Transition \"" ++ transitionName
              ++ "\" not available. Available transitions: "
              ++ String.intercalate ", " (available.map JiraTransition.name)), []))
  ∧ autoCloseLoop fixtureCfg fixtureEnv [issueNoDone, issueWithDone] =
      (1, [JiraWrite.addComment "SEC-2", JiraWrite.doTransition "SEC-2" "31"]) := by
  refine ⟨createUpdateLoop_append, autoCloseLoop_append, ?_, ?_⟩
  · intro issueKey transitionName comment available pc pt hfind
    simp [closeJiraIssue, hfind]
  · rfl

/-- C1 witness: the missing-transition conjunct applied at a concrete
ticket. -/
theorem C1_per_item_failure_isolation_witness :
    closeJiraIssue "SEC-9" "Close it" "bye" false
        (fun _ => Except.ok [⟨"31", "Done"⟩, ⟨"41", "Resolved"⟩])
        (fun _ => Except.ok ()) (fun _ _ => Except.ok ()) =
      (Except.error
        "Transition \"Close it\" not available. Available transitions: Done, Resolved", []) :=
  C1_per_item_failure_isolation.2.2.1 "SEC-9" "Close it" "bye"
    [⟨"31", "Done"⟩, ⟨"41", "Resolved"⟩] (fun _ => Except.ok ()) (fun _ _ => Except.ok ()) rfl

/-- The concrete ticket of claim C2: its summary matches the spec's
abbreviated pattern `Alert #<id>` but not the code's summary pattern
`Dependabot Alert #<id>`, while its body matches `Alert ID: <id>`. -/
def c2Issue : JiraIssue :=
  ⟨"SEC-123", some "Alert #42: prototype pollution in lodash", some "Alert ID: 999"⟩

/-- C2 counterexample: for the ticket with summary `"Alert #42: ..."` and
body `"Alert ID: 999"` the code returns `999` from the body, not `42` from
the summary — the summary pattern actually used is `Dependabot Alert #<id>`,
which this summary does not match. -/
theorem C2_counterexample :
    extractAlertIdFromIssue c2Issue = some "999"
  ∧ extractAlertIdFromIssue c2Issue ≠ some "42" := by
  refine ⟨rfl, ?_⟩
  intro h
  rw [show extractAlertIdFromIssue c2Issue = some "999" from rfl] at h
  simp at h

/-- C2 (amended): the summary pattern `Dependabot Alert #<id>` takes
precedence over the body pattern `Alert ID: <id>` — whenever the summary
matches, the id comes from the summary regardless of the body; in
particular summary `"Dependabot Alert #42: ..."` with body
`"Alert ID: 999"` yields `42`; and when neither pattern matches the result
is `none` (with a warning). -/
theorem C2_summary_precedence :
    (∀ issue s alertId, issue.summary = some s → summaryAlertId s = some alertId →
        extractAlertIdFromIssue issue = some alertId)
  ∧ extractAlertIdFromIssue
      ⟨"SEC-123", some "Dependabot Alert #42: prototype pollution", some "Alert ID: 999"⟩ =
      some "42"
  ∧ (∀ issue, issue.summary.bind summaryAlertId = none →
        issue.description.bind descriptionAlertId = none →
        extractAlertIdFromIssue issue = none) := by
  refine ⟨?_, rfl, ?_⟩
  · intro issue s alertId hs hmatch
    unfold extractAlertIdFromIssue
    rw [hs]
    simp [Option.bind, hmatch]
  · intro issue h1 h2
    unfold extractAlertIdFromIssue
    rw [h1, h2]

/-- C2 witness: the precedence conjunct applied at a concrete ticket whose
summary and body both match. -/
theorem C2_summary_precedence_witness :
    extractAlertIdFromIssue ⟨"SEC-5", some "Dependabot Alert #5: x", some "Alert ID: 6"⟩ =
      some "5" :=
  C2_summary_precedence.1 ⟨"SEC-5", some "Dependabot Alert #5: x", some "Alert ID: 6"⟩
    "Dependabot Alert #5: x" "5" rfl rfl

/-- C3: contrary to the claim (and to the repository's own tests, which
expect `Invalid project key format` / `Invalid alert ID` rejections),
`findExistingIssue` performs no validation at all: a project key full of
JQL metacharacters and a non-numeric alert id are interpolated directly
into the query, the query is issued (the environment here echoes the JQL
it receives as the key of the found issue), and the call returns normally
instead of failing. -/
theorem C3_no_validation_code_bug :
    findExistingIssue "SEC\"; DROP TABLE alerts; --" "42"
        (fun q => SearchOutcome.ok [⟨q, none, none⟩]) =
      some ⟨"project = SEC\"; DROP TABLE alerts; -- AND summary ~ \"Dependabot Alert #42\"",
        none, none⟩
  ∧ findExistingIssue "SEC" "invalid"
        (fun q => SearchOutcome.ok [⟨q, none, none⟩]) =
      some ⟨"project = SEC AND summary ~ \"Dependabot Alert #invalid\"", none, none⟩ :=
  ⟨rfl, rfl⟩

/-- An environment whose single tracked alert resolves to `not_found` and
whose Jira side offers the `Done` transition and accepts all posts. -/
def c4Env : RunEnv :=
  { rawAlerts := Except.ok []
    search := fun _ => SearchOutcome.ok []
    createPost := fun _ => Except.ok "SEC-100"
    updatePost := fun _ => Except.ok ()
    alertLookup := fun _ => AlertLookup.failed 404 "Not Found"
    getTransitions := fun _ => Except.ok [⟨"31", "Done"⟩]
    closeCommentPost := fun _ => Except.ok ()
    transitionPost := fun _ _ => Except.ok () }

/-- C4: the auto-close decision rule.  For a ticket whose alert id is
extractable, a close is attempted exactly when the alert's current status
is `fixed`, `dismissed` or `not_found`; status `open` leaves the ticket
untouched with no write; any other status leaves it untouched with no
write through the warning branch; and in a concrete environment where the
status resolves to `not_found` the ticket is closed. -/
theorem C4_auto_close_decision :
    (∀ cfg env issue alertId st, extractAlertIdFromIssue issue = some alertId →
        getAlertStatus (env.alertLookup alertId) = st →
        ((¬(st = "fixed" ∨ st = "dismissed" ∨ st = "not_found") →
            (autoCloseStep cfg env issue).1 ≠ CloseOutcome.closedIssue
            ∧ (autoCloseStep cfg env issue).2 = [])
         ∧ (st = "open" → autoCloseStep cfg env issue = (CloseOutcome.keptOpen, []))
         ∧ (¬(st = "fixed" ∨ st = "dismissed" ∨ st = "not_found") → st ≠ "open" →
              autoCloseStep cfg env issue = (CloseOutcome.keptOpenUnknown, []))
         ∧ ((st = "fixed" ∨ st = "dismissed" ∨ st = "not_found") ↔
              (autoCloseStep cfg env issue).1 = CloseOutcome.closedIssue
              ∨ ∃ m, (autoCloseStep cfg env issue).1 = CloseOutcome.failed m)))
  ∧ autoCloseStep fixtureCfg c4Env issueWithDone =
      (CloseOutcome.closedIssue, [JiraWrite.addComment "SEC-2", JiraWrite.doTransition "SEC-2" "31"]) := by
  refine ⟨?_, rfl⟩
  intro cfg env issue alertId st hx hst
  have hstep : autoCloseStep cfg env issue =
      (if st = "fixed" ∨ st = "dismissed" ∨ st = "not_found" then
        match closeJiraIssue issue.key cfg.behavior.closeTransition
            (cfg.behavior.closeComment ++ "\n\nReason: " ++ closeReason st)
            cfg.behavior.dryRun env.getTransitions env.closeCommentPost env.transitionPost with
        | (Except.ok _, w) => (CloseOutcome.closedIssue, w)
        | (Except.error e, w) => (CloseOutcome.failed e, w)
      else if st = "open" then (CloseOutcome.keptOpen, [])
      else (CloseOutcome.keptOpenUnknown, [])) := by
    unfold autoCloseStep
    rw [hx]
    simp only [hst]
  refine ⟨?_, ?_, ?_, ?_⟩
  · intro hnot
    rw [hstep]
    rw [if_neg hnot]
    by_cases hopen : st = "open"
    · rw [if_pos hopen]; exact ⟨by simp, rfl⟩
    · rw [if_neg hopen]; exact ⟨by simp, rfl⟩
  · intro hopen
    rw [hstep]
    have hnot : ¬(st = "fixed" ∨ st = "dismissed" ∨ st = "not_found") := by
      subst hopen; simp
    rw [if_neg hnot, if_pos hopen]
  · intro hnot hopen
    rw [hstep, if_neg hnot, if_neg hopen]
  · constructor
    · intro hres
      rw [hstep, if_pos hres]
      cases hc : closeJiraIssue issue.key cfg.behavior.closeTransition
          (cfg.behavior.closeComment ++ "\n\nReason: " ++ closeReason st)
          cfg.behavior.dryRun env.getTransitions env.closeCommentPost env.transitionPost with
      | mk r w =>
        cases r with
        | ok v => left; simp
        | error e => right; exact ⟨e, by simp⟩
    · intro hres
      by_contra hnot
      rcases hres with h | ⟨m, h⟩ <;> rw [hstep, if_neg hnot] at h <;>
        by_cases hopen : st = "open" <;> simp [hopen] at h

/-- An environment whose single tracked alert resolves to the unrecognized
status string `auto_dismissed`. -/
def c4UnknownEnv : RunEnv :=
  { rawAlerts := Except.ok []
    search := fun _ => SearchOutcome.ok []
    createPost := fun _ => Except.ok "SEC-100"
    updatePost := fun _ => Except.ok ()
    alertLookup := fun _ => AlertLookup.found "auto_dismissed"
    getTransitions := fun _ => Except.ok [⟨"31", "Done"⟩]
    closeCommentPost := fun _ => Except.ok ()
    transitionPost := fun _ _ => Except.ok () }

/-- C4 witness: the decision rule applied at a ticket whose alert status is
the unrecognized string `auto_dismissed` — the ticket is left open through
the warning branch with no write. -/
theorem C4_auto_close_decision_witness :
    autoCloseStep fixtureCfg c4UnknownEnv issueWithDone = (CloseOutcome.keptOpenUnknown, []) :=
  ((C4_auto_close_decision.1 fixtureCfg c4UnknownEnv issueWithDone "8" "auto_dismissed"
      rfl rfl).2.2.1) (by decide) (by decide)

theorem jsIndexOfAux_of_not_mem (x : String) :
    ∀ (l : List String) (i : Int), x ∉ l → jsIndexOfAux x l i = -1 := by
  intro l
  induction l with
  | nil => intro i _; rfl
  | cons hd t ih =>
      intro i h
      have hne : ¬hd = x := fun he => h (he ▸ List.mem_cons_self hd t)
      have ht : x ∉ t := fun hm => h (List.mem_cons_of_mem hd hm)
      simp only [jsIndexOfAux, if_neg hne]
      exact ih (i + 1) ht

theorem jsIndexOfAux_ge_of_mem (x : String) :
    ∀ (l : List String) (i : Int), x ∈ l → i ≤ jsIndexOfAux x l i := by
  intro l
  induction l with
  | nil => intro i h; exact absurd h (List.not_mem_nil x)
  | cons hd t ih =>
      intro i h
      by_cases he : hd = x
      · simp only [jsIndexOfAux, if_pos he, le_refl]
      · have ht : x ∈ t := by
          rcases List.mem_cons.mp h with h1 | h1
          · exact absurd h1.symm he
          · exact h1
        simp only [jsIndexOfAux, if_neg he]
        have := ih (i + 1) ht
        omega

theorem jsIndexOf_of_not_mem (l : List String) (x : String) (h : x ∉ l) :
    jsIndexOf l x = -1 :=
  jsIndexOfAux_of_not_mem x l 0 h

theorem jsIndexOf_nonneg_or_neg_one (l : List String) (x : String) :
    jsIndexOf l x = -1 ∨ 0 ≤ jsIndexOf l x := by
  by_cases h : x ∈ l
  · exact Or.inr (jsIndexOfAux_ge_of_mem x l 0 h)
  · exact Or.inl (jsIndexOf_of_not_mem l x h)

/-- C5: the severity filter.  When filtering succeeds, an alert is kept iff
its severity index reaches the threshold index under the ordering encoded by
`severityLevels` (`low < medium < high < critical`); an alert whose severity
is unrecognized has index `-1` and is never kept (fails closed); and a
threshold word outside the four (case-insensitively) makes the whole
filtering operation fail with the `Invalid severity threshold` error rather
than silently defaulting. -/
theorem C5_severity_filter :
    (∀ alerts severityThreshold res alert,
        filterAlertsBySeverity alerts severityThreshold = Except.ok res →
        (alert ∈ res ↔ alert ∈ alerts ∧
          jsIndexOf severityLevels (strToLower severityThreshold) ≤ alertSeverityIndex alert))
  ∧ (∀ alerts severityThreshold res alert,
        filterAlertsBySeverity alerts severityThreshold = Except.ok res →
        alertSeverityIndex alert = -1 → alert ∉ res)
  ∧ (∀ alert advisory s, alert.security_advisory = some advisory →
        advisory.severity = some s → strToLower s ∉ severityLevels →
        alertSeverityIndex alert = -1)
  ∧ (∀ alerts severityThreshold, strToLower severityThreshold ∉ severityLevels →
        filterAlertsBySeverity alerts severityThreshold =
          Except.error ("Invalid severity threshold: " ++ severityThreshold)) := by
  have hok : ∀ alerts severityThreshold res,
      filterAlertsBySeverity alerts severityThreshold = Except.ok res →
      ¬jsIndexOf severityLevels (strToLower severityThreshold) = -1 ∧
      res = alerts.filter
        (fun a => decide (jsIndexOf severityLevels (strToLower severityThreshold) ≤
          alertSeverityIndex a)) := by
    intro alerts severityThreshold res h
    by_cases hmin : jsIndexOf severityLevels (strToLower severityThreshold) = -1
    · rw [filterAlertsBySeverity, if_pos hmin] at h
      exact absurd h (by simp)
    · rw [filterAlertsBySeverity, if_neg hmin] at h
      exact ⟨hmin, (Except.ok.injEq _ _ |>.mp h).symm⟩
  refine ⟨?_, ?_, ?_, ?_⟩
  · intro alerts severityThreshold res alert h
    obtain ⟨-, hres⟩ := hok alerts severityThreshold res h
    subst hres
    simp [List.mem_filter]
  · intro alerts severityThreshold res alert h hidx
    obtain ⟨hmin, hres⟩ := hok alerts severityThreshold res h
    subst hres
    have hge : 0 ≤ jsIndexOf severityLevels (strToLower severityThreshold) := by
      rcases jsIndexOf_nonneg_or_neg_one severityLevels (strToLower severityThreshold) with h1 | h1
      · exact absurd h1 hmin
      · exact h1
    simp only [List.mem_filter, hidx, decide_eq_true_eq]
    intro hcontra
    omega
  · intro alert advisory s hadv hsev hmem
    unfold alertSeverityIndex
    rw [hadv]
    show (match advisory.severity with
          | none => (-1 : Int)
          | some s => jsIndexOf severityLevels (strToLower s)) = -1
    rw [hsev]
    exact jsIndexOf_of_not_mem severityLevels (strToLower s) hmem
  · intro alerts severityThreshold hmem
    unfold filterAlertsBySeverity
    rw [if_pos (jsIndexOf_of_not_mem severityLevels (strToLower severityThreshold) hmem)]

/-- C5 witness: an invalid threshold word rejected on a concrete run, and a
concrete filter in which a critical alert passes a medium threshold while a
low one does not. -/
theorem C5_severity_filter_witness :
    filterAlertsBySeverity [] "severe" =
      Except.error ("Invalid severity threshold: " ++ "severe") :=
  C5_severity_filter.2.2.2 [] "severe" (by decide)

/-- C6: due-date calculation.  The two concrete examples of the claim hold
(with an arbitrary unrelated current date, showing the alert creation time
is what is used); every unrecognized severity falls back to the medium
offset; when no creation timestamp is supplied the current date is used as
the reference; for a parseable creation timestamp the result is exactly the
civil date plus the per-severity whole-day offset, rendered `YYYY-MM-DD`;
and the hardcoded defaults 1/7/30/90 apply when a configured value is
absent or zero. -/
theorem C6_due_date_calculation :
    calculateDueDate "critical" ⟨some 1, some 7, some 30, some 90⟩
        (some "2023-01-10T08:00:00Z") (2023, 6, 1) = some "2023-01-11"
  ∧ calculateDueDate "low" ⟨some 1, some 7, some 30, some 90⟩
        (some "2023-01-10T08:00:00Z") (2023, 6, 1) = some "2023-04-10"
  ∧ (∀ severity cfg createdAt now, severity ≠ "critical" → severity ≠ "high" →
        severity ≠ "medium" → severity ≠ "low" →
        calculateDueDate severity cfg createdAt now = calculateDueDate "medium" cfg createdAt now)
  ∧ (∀ severity cfg now, calculateDueDate severity cfg none now =
        some (formatDate (fromRd (toRd now.1 now.2.1 now.2.2 + daysForSeverity severity cfg))))
  ∧ (∀ severity cfg now iso y m d, parseIsoTimestamp iso = some (y, m, d) →
        calculateDueDate severity cfg (some iso) now =
          some (formatDate (fromRd (toRd y m d + daysForSeverity severity cfg))))
  ∧ (daysForSeverity "critical" ⟨none, none, none, none⟩ = 1
     ∧ daysForSeverity "high" ⟨none, none, none, none⟩ = 7
     ∧ daysForSeverity "medium" ⟨none, none, none, none⟩ = 30
     ∧ daysForSeverity "low" ⟨none, none, none, none⟩ = 90
     ∧ daysForSeverity "critical" ⟨some 0, some 0, some 0, some 0⟩ = 1
     ∧ daysForSeverity "high" ⟨some 0, some 0, some 0, some 0⟩ = 7
     ∧ daysForSeverity "medium" ⟨some 0, some 0, some 0, some 0⟩ = 30
     ∧ daysForSeverity "low" ⟨some 0, some 0, some 0, some 0⟩ = 90) := by
  refine ⟨rfl, rfl, ?_, ?_, ?_, by decide⟩
  · intro severity cfg createdAt now h1 h2 h3 h4
    have hdays : daysForSeverity severity cfg = daysForSeverity "medium" cfg := by
      simp [daysForSeverity, h1, h2, h3, h4]
    unfold calculateDueDate
    rw [hdays]
  · intro severity cfg now
    obtain ⟨ny, nm, nd⟩ := now
    rfl
  · intro severity cfg now iso y m d hparse
    by_cases hempty : iso = ""
    · rw [hempty] at hparse
      rw [show parseIsoTimestamp "" = none from rfl] at hparse
      exact Option.noConfusion hparse
    · simp only [calculateDueDate, hparse, if_neg hempty]

/-- C6 witness: the unrecognized-severity conjunct applied at the severity
word `moderate`, and the parseable-timestamp conjunct at a concrete
timestamp. -/
theorem C6_due_date_calculation_witness :
    calculateDueDate "moderate" ⟨some 1, some 7, some 30, some 90⟩
        (some "2023-01-10T08:00:00Z") (2023, 6, 1) =
      calculateDueDate "medium" ⟨some 1, some 7, some 30, some 90⟩
        (some "2023-01-10T08:00:00Z") (2023, 6, 1) :=
  C6_due_date_calculation.2.2.1 "moderate" ⟨some 1, some 7, some 30, some 90⟩
    (some "2023-01-10T08:00:00Z") (2023, 6, 1)
    (by decide) (by decide) (by decide) (by decide)

/-- The run configuration with the dry-run flag forced to `b`. -/
def setDryRun (cfg : RunConfig) (b : Bool) : RunConfig :=
  { cfg with behavior := { cfg.behavior with dryRun := b } }

theorem processAlert_dryRun_counts (cfg : RunConfig) (env : RunEnv) (a : RawAlert)
    (kf : IssueFields → String)
    (hc : env.createPost = fun f => Except.ok (kf f))
    (hu : env.updatePost = fun _ => Except.ok ()) :
    (processAlert (setDryRun cfg true) env a).2 = []
    ∧ ((processAlert (setDryRun cfg true) env a).1 = AlertOutcome.created ↔
        (processAlert (setDryRun cfg false) env a).1 = AlertOutcome.created)
    ∧ ((processAlert (setDryRun cfg true) env a).1 = AlertOutcome.updated ↔
        (processAlert (setDryRun cfg false) env a).1 = AlertOutcome.updated) := by
  simp only [processAlert, setDryRun]
  cases hfind : findExistingIssue cfg.jira.projectKey (toString (parseAlert a).id) env.search with
  | some issue =>
      by_cases hup : cfg.behavior.updateExisting
      · simp [hfind, hup, updateJiraIssue, hu]
      · simp [hfind, hup]
  | none =>
      cases hdd : calculateDueDate (parseAlert a).severity cfg.jira.dueDays
          (parseAlert a).createdAt cfg.now with
      | none => simp [hfind, createJiraIssue, hdd]
      | some dd => simp [hfind, createJiraIssue, hdd, hc]

theorem createUpdateLoop_dryRun (cfg : RunConfig) (env : RunEnv) (alerts : List RawAlert)
    (kf : IssueFields → String)
    (hc : env.createPost = fun f => Except.ok (kf f))
    (hu : env.updatePost = fun _ => Except.ok ()) :
    createUpdateLoop (setDryRun cfg true) env alerts =
      { createUpdateLoop (setDryRun cfg false) env alerts with writes := [] } := by
  induction alerts with
  | nil => rfl
  | cons a rest ih =>
      obtain ⟨hw, hcr, hupd⟩ := processAlert_dryRun_counts cfg env a kf hc hu
      have ihc : (createUpdateLoop (setDryRun cfg true) env rest).created =
          (createUpdateLoop (setDryRun cfg false) env rest).created := by rw [ih]
      have ihu : (createUpdateLoop (setDryRun cfg true) env rest).updated =
          (createUpdateLoop (setDryRun cfg false) env rest).updated := by rw [ih]
      have ihp : (createUpdateLoop (setDryRun cfg true) env rest).processed =
          (createUpdateLoop (setDryRun cfg false) env rest).processed := by rw [ih]
      have ihw : (createUpdateLoop (setDryRun cfg true) env rest).writes = [] := by rw [ih]
      simp only [createUpdateLoop, LoopTotals.mk.injEq]
      refine ⟨?_, ?_, ?_, ?_⟩
      · rw [if_congr hcr rfl rfl, ihc]
      · rw [if_congr hupd rfl rfl, ihu]
      · rw [ihp]
      · rw [hw, ihw]; rfl

theorem autoCloseStep_dryRun_counts (cfg : RunConfig) (env : RunEnv) (issue : JiraIssue)
    (ts : String → List JiraTransition) (tg : String → JiraTransition)
    (htr : env.getTransitions = fun k => Except.ok (ts k))
    (hfindtg : ∀ k, (ts k).find?
        (fun t => strToLower t.name == strToLower cfg.behavior.closeTransition) = some (tg k))
    (hcc : env.closeCommentPost = fun _ => Except.ok ())
    (hpt : env.transitionPost = fun _ _ => Except.ok ()) :
    (autoCloseStep (setDryRun cfg true) env issue).2 = []
    ∧ ((autoCloseStep (setDryRun cfg true) env issue).1 = CloseOutcome.closedIssue ↔
        (autoCloseStep (setDryRun cfg false) env issue).1 = CloseOutcome.closedIssue) := by
  simp only [autoCloseStep, setDryRun]
  cases hx : extractAlertIdFromIssue issue with
  | none => simp
  | some aid =>
      by_cases hres : getAlertStatus (env.alertLookup aid) = "fixed"
          ∨ getAlertStatus (env.alertLookup aid) = "dismissed"
          ∨ getAlertStatus (env.alertLookup aid) = "not_found"
      · by_cases hcm : (cfg.behavior.closeComment ++ "\n\nReason: "
            ++ closeReason (getAlertStatus (env.alertLookup aid))) = ""
        · simp [hres, closeJiraIssue, htr, hfindtg issue.key, hcc, hpt, hcm]
        · simp [hres, closeJiraIssue, htr, hfindtg issue.key, hcc, hpt, hcm]
      · by_cases hopen : getAlertStatus (env.alertLookup aid) = "open" <;>
          simp [hres, hopen]

theorem autoCloseLoop_dryRun (cfg : RunConfig) (env : RunEnv) (issues : List JiraIssue)
    (ts : String → List JiraTransition) (tg : String → JiraTransition)
    (htr : env.getTransitions = fun k => Except.ok (ts k))
    (hfindtg : ∀ k, (ts k).find?
        (fun t => strToLower t.name == strToLower cfg.behavior.closeTransition) = some (tg k))
    (hcc : env.closeCommentPost = fun _ => Except.ok ())
    (hpt : env.transitionPost = fun _ _ => Except.ok ()) :
    autoCloseLoop (setDryRun cfg true) env issues =
      ((autoCloseLoop (setDryRun cfg false) env issues).1, []) := by
  induction issues with
  | nil => rfl
  | cons i rest ih =>
      obtain ⟨hw, hcl⟩ := autoCloseStep_dryRun_counts cfg env i ts tg htr hfindtg hcc hpt
      have ih1 : (autoCloseLoop (setDryRun cfg true) env rest).1 =
          (autoCloseLoop (setDryRun cfg false) env rest).1 := by rw [ih]
      have ih2 : (autoCloseLoop (setDryRun cfg true) env rest).2 = [] := by rw [ih]
      simp only [autoCloseLoop, Prod.mk.injEq]
      refine ⟨?_, ?_⟩
      · rw [if_congr hcl rfl rfl, ih1]
      · rw [hw, ih2]; rfl

/-- C7: the dry-run frame.  With dry-run enabled, create, update and close
each issue zero mutating requests and return their sentinel results (create
returns `DRY-RUN-KEY` whenever the due date computes; close posts neither
the comment nor the transition); over whole loops, the dry run performs
zero writes while its created/updated/closed counters coincide with those
of the real run under the same (successful) environment; and the run
summary uses the conditional `DRY RUN: Would create ...` wording. -/
theorem C7_dry_run_frame :
    (∀ cfg alert now post, (createJiraIssue cfg alert true now post).2 = [])
  ∧ (∀ cfg alert now post dueDate,
        calculateDueDate alert.severity cfg.dueDays alert.createdAt now = some dueDate →
        (createJiraIssue cfg alert true now post).1 = Except.ok ⟨"DRY-RUN-KEY", true⟩)
  ∧ (∀ issueKey alert post,
        updateJiraIssue issueKey alert true post = (Except.ok ⟨true, true⟩, []))
  ∧ (∀ issueKey transitionName comment gt pc pt,
        closeJiraIssue issueKey transitionName comment true gt pc pt =
          (Except.ok ⟨false, true⟩, []))
  ∧ (∀ cfg env alerts (kf : IssueFields → String),
        env.createPost = (fun f => Except.ok (kf f)) →
        env.updatePost = (fun _ => Except.ok ()) →
        createUpdateLoop (setDryRun cfg true) env alerts =
          { createUpdateLoop (setDryRun cfg false) env alerts with writes := [] })
  ∧ (∀ cfg env issues (ts : String → List JiraTransition) (tg : String → JiraTransition),
        env.getTransitions = (fun k => Except.ok (ts k)) →
        (∀ k, (ts k).find?
          (fun t => strToLower t.name == strToLower cfg.behavior.closeTransition) = some (tg k)) →
        env.closeCommentPost = (fun _ => Except.ok ()) →
        env.transitionPost = (fun _ _ => Except.ok ()) →
        autoCloseLoop (setDryRun cfg true) env issues =
          ((autoCloseLoop (setDryRun cfg false) env issues).1, []))
  ∧ (∀ cfg env raw alerts, cfg.behavior.dryRun = true →
        env.rawAlerts = Except.ok raw →
        filterAlertsBySeverity raw cfg.severityThreshold = Except.ok alerts →
        alerts ≠ [] →
        lookupOutput (runSync cfg env).1 "summary" =
          some (dryRunSummary (createUpdateLoop cfg env alerts).created
            (createUpdateLoop cfg env alerts).updated
            (if cfg.behavior.autoCloseResolved then
              (autoCloseLoop cfg env (findOpenDependabotIssues cfg.jira.projectKey env.search)).1
             else 0))) := by
  refine ⟨?_, ?_, ?_, ?_, ?_, ?_, ?_⟩
  · intro cfg alert now post
    unfold createJiraIssue
    cases h : calculateDueDate alert.severity cfg.dueDays alert.createdAt now <;> simp [h]
  · intro cfg alert now post dueDate hdd
    simp [createJiraIssue, hdd]
  · intro issueKey alert post; rfl
  · intro issueKey transitionName comment gt pc pt; rfl
  · intro cfg env alerts kf hc hu
    exact createUpdateLoop_dryRun cfg env alerts kf hc hu
  · intro cfg env issues ts tg htr hfindtg hcc hpt
    exact autoCloseLoop_dryRun cfg env issues ts tg htr hfindtg hcc hpt
  · intro cfg env raw alerts hdry henv hfilter hne
    have hlen : ¬alerts.length = 0 := by
      intro h; exact hne (List.length_eq_zero.mp h)
    simp only [runSync, henv, hfilter, if_neg hlen, hdry]
    by_cases h : cfg.behavior.autoCloseResolved = true <;>
      simp [lookupOutput, List.find?, h]

/-- A concrete parsed alert used to instantiate dry-run facts. -/
def witnessAlert : ParsedAlert :=
  { id := 1, title := "vuln", description := "desc", severity := "critical",
    package := "lodash", ecosystem := "npm", vulnerableVersionRange := "< 4.17.12",
    firstPatchedVersion := "4.17.12", cvss := none, cveId := none, ghsaId := none,
    url := "https://example.test/alert/1", createdAt := some "2023-01-10T08:00:00Z",
    updatedAt := "2023-01-10T08:00:00Z", state := "open", dismissedAt := none,
    dismissedReason := none, dismissedComment := none }

/-- C7 witness: the dry-run create sentinel at a concrete alert whose due
date computes. -/
theorem C7_dry_run_frame_witness :
    (createJiraIssue fixtureJira witnessAlert true (2023, 1, 15)
        (fun _ => Except.ok "SEC-1")).1 = Except.ok ⟨"DRY-RUN-KEY", true⟩ :=
  C7_dry_run_frame.2.1 fixtureJira witnessAlert (2023, 1, 15)
    (fun _ => Except.ok "SEC-1") "2023-01-11" rfl

/-- C8: on a run whose filtered alert list is empty, the code sets
`issues-created`, `issues-updated` and `alerts-processed` to `"0"` and the
summary to `No alerts to process`, but — contrary to the claim and to the
output list declared in action.yml — it never sets `issues-closed` on this
path (the early return predates the auto-close feature), so that output
reads as absent rather than `"0"`. -/
theorem C8_zero_alert_outputs :
    ∀ cfg env raw, env.rawAlerts = Except.ok raw →
      filterAlertsBySeverity raw cfg.severityThreshold = Except.ok [] →
      lookupOutput (runSync cfg env).1 "issues-created" = some "0"
      ∧ lookupOutput (runSync cfg env).1 "issues-updated" = some "0"
      ∧ lookupOutput (runSync cfg env).1 "alerts-processed" = some "0"
      ∧ lookupOutput (runSync cfg env).1 "summary" = some "No alerts to process"
      ∧ lookupOutput (runSync cfg env).1 "issues-closed" = none := by
  intro cfg env raw henv hfilter
  simp only [runSync, henv, hfilter]
  exact ⟨rfl, rfl, rfl, rfl, rfl⟩

/-- C8 witness: the zero-alert outputs at a concrete configuration and
environment. -/
theorem C8_zero_alert_outputs_witness :
    lookupOutput (runSync fixtureCfg fixtureEnv).1 "issues-closed" = none
    ∧ lookupOutput (runSync fixtureCfg fixtureEnv).1 "summary" =
        some "No alerts to process" :=
  ⟨(C8_zero_alert_outputs fixtureCfg fixtureEnv [] rfl rfl).2.2.2.2,
   (C8_zero_alert_outputs fixtureCfg fixtureEnv [] rfl rfl).2.2.2.1⟩

/-- C9: `getAlertStatus` is total over lookup outcomes — it passes a found
state through unchanged, maps a 404 failure to `not_found` and any other
failure to `unknown`; consequently, in the auto-close loop a ticket whose
status lookup fails with a non-404 transport error is left open through the
unknown-status warning branch with no write, and the rest of the loop is
unaffected. -/
theorem C9_alert_status_totality :
    (∀ st, getAlertStatus (AlertLookup.found st) = st)
  ∧ (∀ msg, getAlertStatus (AlertLookup.failed 404 msg) = "not_found")
  ∧ (∀ status msg, status ≠ 404 → getAlertStatus (AlertLookup.failed status msg) = "unknown")
  ∧ (∀ cfg env issue alertId status msg,
        extractAlertIdFromIssue issue = some alertId →
        env.alertLookup alertId = AlertLookup.failed status msg → status ≠ 404 →
        autoCloseStep cfg env issue = (CloseOutcome.keptOpenUnknown, []))
  ∧ (∀ cfg env issue rest alertId status msg,
        extractAlertIdFromIssue issue = some alertId →
        env.alertLookup alertId = AlertLookup.failed status msg → status ≠ 404 →
        autoCloseLoop cfg env (issue :: rest) = autoCloseLoop cfg env rest) := by
  have hstep : ∀ cfg env issue alertId status msg,
      extractAlertIdFromIssue issue = some alertId →
      env.alertLookup alertId = AlertLookup.failed status msg → status ≠ 404 →
      autoCloseStep cfg env issue = (CloseOutcome.keptOpenUnknown, []) := by
    intro cfg env issue alertId status msg hx hlookup h404
    have hs : getAlertStatus (AlertLookup.failed status msg) = "unknown" := by
      show (if status = 404 then "not_found" else "unknown") = "unknown"
      rw [if_neg h404]
    simp [autoCloseStep, hx, hlookup, hs]
  refine ⟨?_, fun _ => rfl, ?_, hstep, ?_⟩
  · intro st
    by_cases h1 : st = "open" <;> by_cases h2 : st = "dismissed" <;>
      by_cases h3 : st = "fixed" <;> simp [getAlertStatus, h1, h2, h3]
  · intro status msg h404
    show (if status = 404 then "not_found" else "unknown") = "unknown"
    rw [if_neg h404]
  · intro cfg env issue rest alertId status msg hx hlookup h404
    simp [autoCloseLoop, hstep cfg env issue alertId status msg hx hlookup h404]

/-- An environment whose alert-status lookup fails with a non-404 transport
error. -/
def c9Env : RunEnv :=
  { rawAlerts := Except.ok []
    search := fun _ => SearchOutcome.ok []
    createPost := fun _ => Except.ok "SEC-100"
    updatePost := fun _ => Except.ok ()
    alertLookup := fun _ => AlertLookup.failed 500 "Internal Server Error"
    getTransitions := fun _ => Except.ok [⟨"31", "Done"⟩]
    closeCommentPost := fun _ => Except.ok ()
    transitionPost := fun _ _ => Except.ok () }

/-- C9 witness: a concrete ticket whose status lookup fails with HTTP 500 is
left open with no write. -/
theorem C9_alert_status_totality_witness :
    autoCloseStep fixtureCfg c9Env issueWithDone = (CloseOutcome.keptOpenUnknown, []) :=
  C9_alert_status_totality.2.2.2.1 fixtureCfg c9Env issueWithDone "8" 500
    "Internal Server Error" rfl rfl (by decide)

/-- The concrete raw alert of claim C10: every textual advisory field is the
empty string, the CVSS score is `0`, and only the dependency has data. -/
def c10Alert : RawAlert :=
  { number := 42
    security_advisory := some
      { summary := some "", description := some "", severity := some "",
        cvss := some ⟨some 0⟩, cve_id := some "", ghsa_id := some "" }
    security_vulnerability := some ⟨none, none⟩
    dependency := some ⟨some ⟨some "lodash", some "npm"⟩⟩
    html_url := "https://example.test/alert/42"
    created_at := none
    updated_at := "2023-01-01T00:00:00Z"
    state := "open"
    dismissed_at := none
    dismissed_reason := none
    dismissed_comment := none }

/-- C10: `parseAlert` collapses every falsy raw field to its fallback, not
only absent ones — a CVSS score equal to `0` comes out as `cvss = none`,
indistinguishable from an alert with no CVSS at all, and empty-string
advisory summary, description and severity are replaced by their fallback
values rather than preserved. -/
theorem C10_parseAlert_falsy_collapse :
    (∀ alert advisory, alert.security_advisory = some advisory →
        advisory.cvss.bind RawCvss.score = some 0 → (parseAlert alert).cvss = none)
  ∧ (∀ alert advisory, alert.security_advisory = some advisory →
        advisory.cvss.bind RawCvss.score = none → (parseAlert alert).cvss = none)
  ∧ (∀ alert advisory, alert.security_advisory = some advisory →
        advisory.description = some "" →
        (parseAlert alert).description = "No description available")
  ∧ (∀ alert advisory, alert.security_advisory = some advisory →
        advisory.severity = some "" → (parseAlert alert).severity = "unknown")
  ∧ (∀ alert advisory, alert.security_advisory = some advisory →
        advisory.summary = some "" →
        (parseAlert alert).title = "Vulnerability in "
          ++ jsOrStr ((alert.dependency.getD emptyDependency).package.bind RawPackage.name)
              "unknown")
  ∧ ((parseAlert c10Alert).title = "Vulnerability in lodash"
     ∧ (parseAlert c10Alert).description = "No description available"
     ∧ (parseAlert c10Alert).severity = "unknown"
     ∧ (parseAlert c10Alert).cvss = none
     ∧ (parseAlert c10Alert).cveId = none
     ∧ (parseAlert c10Alert).ghsaId = none) := by
  refine ⟨?_, ?_, ?_, ?_, ?_, by exact ⟨rfl, rfl, rfl, rfl, rfl, rfl⟩⟩
  · intro alert advisory hadv hscore
    show jsOrNullQ ((alert.security_advisory.getD emptyAdvisory).cvss.bind RawCvss.score) = none
    rw [hadv]
    show jsOrNullQ (advisory.cvss.bind RawCvss.score) = none
    rw [hscore]
    simp [jsOrNullQ]
  · intro alert advisory hadv hscore
    show jsOrNullQ ((alert.security_advisory.getD emptyAdvisory).cvss.bind RawCvss.score) = none
    rw [hadv]
    show jsOrNullQ (advisory.cvss.bind RawCvss.score) = none
    rw [hscore]
    rfl
  · intro alert advisory hadv hdesc
    show jsOrStr (alert.security_advisory.getD emptyAdvisory).description
      "No description available" = "No description available"
    rw [hadv]
    show jsOrStr advisory.description "No description available" = "No description available"
    rw [hdesc]
    rfl
  · intro alert advisory hadv hsev
    show jsOrStr ((alert.security_advisory.getD emptyAdvisory).severity.map strToLower)
      "unknown" = "unknown"
    rw [hadv]
    show jsOrStr (advisory.severity.map strToLower) "unknown" = "unknown"
    rw [hsev]
    rfl
  · intro alert advisory hadv hsum
    show jsOrStr (alert.security_advisory.getD emptyAdvisory).summary _ = _
    rw [hadv]
    show jsOrStr advisory.summary _ = _
    rw [hsum]
    rfl

/-- C10 witness: the zero-CVSS conjunct applied at the concrete alert. -/
theorem C10_parseAlert_falsy_collapse_witness :
    (parseAlert c10Alert).cvss = none :=
  C10_parseAlert_falsy_collapse.1 c10Alert
    { summary := some "", description := some "", severity := some "",
      cvss := some ⟨some 0⟩, cve_id := some "", ghsa_id := some "" } rfl rfl
